import Mathlib

/-!
Shallow embedding of the Sesame3 accessory core (state reconciler, command
dispatcher, history recorder) from src/accessories/Sesame3.ts of
homebridge-open-sesame, together with proofs about the frozen claims.

Numeric characteristic values follow the HAP constants used by the source:
LockCurrentState UNSECURED = 0, SECURED = 1, JAMMED = 2, UNKNOWN = 3;
ContactSensorState CONTACT_DETECTED = 0, CONTACT_NOT_DETECTED = 1.
-/

namespace OpenSesame

/-- HAP constant: LockCurrentState.UNSECURED. -/
def LockCurrentState.UNSECURED : Int := 0

/-- HAP constant: LockCurrentState.SECURED. -/
def LockCurrentState.SECURED : Int := 1

/-- HAP constant: LockCurrentState.JAMMED. -/
def LockCurrentState.JAMMED : Int := 2

/-- HAP constant: LockCurrentState.UNKNOWN. -/
def LockCurrentState.UNKNOWN : Int := 3

/-- HAP constant: ContactSensorState.CONTACT_DETECTED. -/
def ContactSensorState.CONTACT_DETECTED : Int := 0

/-- HAP constant: ContactSensorState.CONTACT_NOT_DETECTED. -/
def ContactSensorState.CONTACT_NOT_DETECTED : Int := 1

/-- Input sample from the client (types/API CHSesame2MechStatus, the fields
consumed by setLockStatus). -/
structure CHSesame2MechStatus where
  isInLockRange : Bool
  isInUnlockRange : Bool
  batteryPercentage : Int
  isBatteryCritical : Bool
deriving DecidableEq

/-- Lock and unlock commands (types/Command is outside src; only the selection
between the two commands matters to the dispatcher). -/
inductive Command where
  | lock
  | unlock
deriving DecidableEq

/-- The two client implementations selected once at construction. -/
inductive ClientKind where
  | candy
  | cognito
deriving DecidableEq

/-- isWebAPIMode getter: the client is an instance of CandyClient. -/
def isWebAPIMode : ClientKind → Bool
  | ClientKind.candy => true
  | ClientKind.cognito => false

/-- Persisted accessory context (accessory.context fields used by Sesame3).
A value of none models a field that is undefined in the persisted context. -/
structure Context where
  lockState : Int
  batteryLevel : Int
  batteryCritical : Bool
  timesOpened : Option Int
  lastReset : Option Int
  lastActivation : Option Int
deriving DecidableEq

/-- Cached values of the exposed characteristics written through updateValue
or updateCharacteristic. -/
structure Chars where
  lockCurrent : Int
  lockTarget : Int
  battery : Int
  lowBattery : Bool
  contactSensor : Int
  timesOpened : Option Int
  lastActivation : Int
deriving DecidableEq

/-- One fakegato history entry as built by the source: a unix timestamp in
seconds and a contact state. -/
structure HistoryEntry where
  time : Int
  status : Int
deriving DecidableEq

/-- Whole accessory state: persisted context, characteristic caches, whether
the EVE history features are set up (sesame.history == true, which is when the
ContactSensor service and its change listener exist), the initial time of the
history service, and the appended history entries. -/
structure SesameState where
  ctx : Context
  chars : Chars
  historyEnabled : Bool
  initialTime : Int
  entries : List HistoryEntry
deriving DecidableEq

/-- A characteristic value sent in a notification. The undef constructor
models the result of incrementing an undefined counter. -/
inductive CVal where
  | num (n : Int)
  | flag (b : Bool)
  | undef
deriving DecidableEq

/-- The characteristics the source notifies. -/
inductive CharName where
  | lockCurrentState
  | lockTargetState
  | batteryLevel
  | statusLowBattery
  | contactSensorState
  | timesOpened
  | lastActivation
deriving DecidableEq

/-- Externally observable actions issued by the accessory code. -/
inductive Event where
  | charUpdate (c : CharName) (v : CVal)
  | addEntry (time : Int) (status : Int)
  | postCmd (cmd : Command)
  | sleepMs (ms : Nat)
  | updateToLatest
  | clientShutdown
  | scheduleTimer (delayMs : Nat)
  | cancelTimer
deriving DecidableEq

/-- Wraps an optional counter value as a characteristic value. -/
def CVal.ofCounter : Option Int → CVal
  | some n => CVal.num n
  | none => CVal.undef

/-- getLockState: read handler for LockCurrentState and LockTargetState. -/
def getLockState (s : SesameState) : Int :=
  s.ctx.lockState

/-- getBatteryLevel: read handler for BatteryLevel. -/
def getBatteryLevel (s : SesameState) : Int :=
  s.ctx.batteryLevel

/-- getStatusLowBattery: read handler for StatusLowBattery. -/
def getStatusLowBattery (s : SesameState) : Bool :=
  s.ctx.batteryCritical

/-- The contact state derived from a lock state: CONTACT_DETECTED when
SECURED, otherwise CONTACT_NOT_DETECTED. -/
def contactStateOf (lockState : Int) : Int :=
  if lockState = LockCurrentState.SECURED then ContactSensorState.CONTACT_DETECTED
  else ContactSensorState.CONTACT_NOT_DETECTED

/-- The change listener installed on ContactSensorState in
setupHistoryService: when the value changed, record lastActivation, notify
LastActivation, on an opening transition increment timesOpened and notify
TimesOpened, and append a history entry. -/
def contactOnChange (s : SesameState) (now oldV newV : Int) : SesameState × List Event :=
  if newV = oldV then (s, [])
  else
    let entryTime := now
    let s1 : SesameState := { s with ctx := { s.ctx with lastActivation := some entryTime } }
    let lastActVal : Int := max 0 (entryTime - s.initialTime)
    let s2 : SesameState := { s1 with chars := { s1.chars with lastActivation := lastActVal } }
    let evs1 := [Event.charUpdate CharName.lastActivation (CVal.num lastActVal)]
    let next :=
      if newV ≠ 0 then
        let t := s2.ctx.timesOpened.map (fun n => n + 1)
        ({ s2 with ctx := { s2.ctx with timesOpened := t },
                   chars := { s2.chars with timesOpened := t } },
         [Event.charUpdate CharName.timesOpened (CVal.ofCounter t)])
      else (s2, ([] : List Event))
    let s4 : SesameState :=
      { next.1 with entries := next.1.entries ++ [{ time := entryTime, status := newV }] }
    (s4, evs1 ++ next.2 ++ [Event.addEntry entryTime newV])

/-- updateValue on the ContactSensorState characteristic: caches the value,
notifies, and fires the change listener (which exists exactly when the
history features are set up; callers only reach this with a sensor present). -/
def updateContactChar (s : SesameState) (now newV : Int) : SesameState × List Event :=
  let oldV := s.chars.contactSensor
  let s1 : SesameState := { s with chars := { s.chars with contactSensor := newV } }
  let r := contactOnChange s1 now oldV newV
  (r.1, Event.charUpdate CharName.contactSensorState (CVal.num newV) :: r.2)

/-- updateContactSensorState: if the ContactSensor service exists, push the
contact state derived from the persisted lock state to its characteristic. -/
def updateContactSensorState (s : SesameState) (now : Int) : SesameState × List Event :=
  if s.historyEnabled then
    updateContactChar s now (contactStateOf s.ctx.lockState)
  else (s, [])

/-- The lock state derived from a valid sample: SECURED when isInLockRange,
otherwise UNSECURED. -/
def derivedLockState (status : CHSesame2MechStatus) : Int :=
  if status.isInLockRange then LockCurrentState.SECURED
  else LockCurrentState.UNSECURED

/-- setLockStatus: the state reconciler. Discards ambiguous samples, discards
samples whose derived lock state equals the stored one, and otherwise stores
the new lock state and battery fields and notifies the lock, battery and
contact sensor characteristics. -/
def setLockStatus (s : SesameState) (status : CHSesame2MechStatus) (now : Int) :
    SesameState × List Event :=
  if status.isInLockRange = status.isInUnlockRange then (s, [])
  else
    let currentLockState := s.ctx.lockState
    let newLockState := derivedLockState status
    if newLockState = currentLockState then (s, [])
    else
      let s1 : SesameState := { s with ctx := { s.ctx with
        lockState := newLockState,
        batteryLevel := status.batteryPercentage,
        batteryCritical := status.isBatteryCritical } }
      let s2 : SesameState := { s1 with chars := { s1.chars with
        lockTarget := getLockState s1,
        lockCurrent := getLockState s1,
        battery := getBatteryLevel s1,
        lowBattery := getStatusLowBattery s1 } }
      let evs := [Event.charUpdate CharName.lockTargetState (CVal.num (getLockState s1)),
                  Event.charUpdate CharName.lockCurrentState (CVal.num (getLockState s1)),
                  Event.charUpdate CharName.batteryLevel (CVal.num (getBatteryLevel s1)),
                  Event.charUpdate CharName.statusLowBattery (CVal.flag (getStatusLowBattery s1))]
      let r := updateContactSensorState s2 now
      (r.1, evs ++ r.2)

/-- updateToLatestStatus: poll the client; an absent status is a no-op,
otherwise reconcile through setLockStatus. -/
def updateToLatestStatus (s : SesameState) (poll : Option CHSesame2MechStatus) (now : Int) :
    SesameState × List Event :=
  match poll with
  | none => (s, [])
  | some st => setLockStatus s st now

/-- Environment of one dispatch: the active client, whether postCmd rejects,
and the poll outcome with its time for the re-poll. -/
structure DispatchEnv where
  client : ClientKind
  postCmdFails : Bool
  poll : Option CHSesame2MechStatus
  now : Int
deriving DecidableEq

/-- The switch at the top of setLockTargetState: the command for a target
value, or none for unsupported values. -/
def cmdFor (value : Int) : Option Command :=
  if value = LockCurrentState.SECURED then some Command.lock
  else if value = LockCurrentState.UNSECURED then some Command.unlock
  else none

/-- Step 1 of the dispatch body: the optimistic write of the requested value
to the LockTargetState characteristic cache. -/
def optimisticTarget (s : SesameState) (value : Int) : SesameState :=
  { s with chars := { s.chars with lockTarget := value } }

/-- The body passed to the mutex in setLockTargetState: optimistic
LockTargetState update, postCmd, and for the CandyClient a 2.5 second sleep
followed by a triggered re-poll. A rejected postCmd aborts the body; the
error value carries the state and events produced before the throw. -/
def mutexBody (s : SesameState) (value : Int) (cmd : Command) (env : DispatchEnv) :
    Except (SesameState × List Event) (SesameState × List Event) :=
  let s1 : SesameState := optimisticTarget s value
  let evs1 := [Event.charUpdate CharName.lockTargetState (CVal.num value),
               Event.postCmd cmd]
  if env.postCmdFails then Except.error (s1, evs1)
  else if isWebAPIMode env.client then
    let r := updateToLatestStatus s1 env.poll env.now
    Except.ok (r.1, evs1 ++ [Event.sleepMs 2500, Event.updateToLatest] ++ r.2)
  else Except.ok (s1, evs1)

/-- setLockTargetState: the command dispatcher. Unsupported targets return
with no effect; otherwise the mutex body runs and any error it raises is
caught and answered by forcing the LockCurrentState characteristic to
JAMMED, so no error reaches the caller. -/
def setLockTargetState (s : SesameState) (value : Int) (env : DispatchEnv) :
    SesameState × List Event :=
  match cmdFor value with
  | none => (s, [])
  | some cmd =>
    match mutexBody s value cmd env with
    | Except.ok r => r
    | Except.error r =>
        ({ r.1 with chars := { r.1.chars with lockCurrent := LockCurrentState.JAMMED } },
         r.2 ++ [Event.charUpdate CharName.lockCurrentState (CVal.num LockCurrentState.JAMMED)])

/-- updateHistory: the heartbeat. Appends an entry with the contact state
derived from the current persisted lock state and reschedules itself after
10 minutes. -/
def updateHistory (s : SesameState) (now : Int) : SesameState × List Event :=
  let state := contactStateOf s.ctx.lockState
  ({ s with entries := s.entries ++ [{ time := now, status := state }] },
   [Event.addEntry now state, Event.scheduleTimer (10 * 60 * 1000)])

/-- The listener registered on APIEvent.SHUTDOWN in the constructor: it only
shuts the client down. -/
def shutdownHandler : List Event :=
  [Event.clientShutdown]

/-- The ResetTotal write handler: zero timesOpened, store the reset marker,
and push the zeroed TimesOpened to the contact sensor when it exists. -/
def resetTotalSet (s : SesameState) (reset : Int) : SesameState × List Event :=
  let s1 : SesameState := { s with ctx := { s.ctx with
    timesOpened := some 0, lastReset := some reset } }
  if s.historyEnabled then
    ({ s1 with chars := { s1.chars with timesOpened := some 0 } },
     [Event.charUpdate CharName.timesOpened (CVal.num 0)])
  else (s1, [])

/-- Seconds between the Unix epoch and 2001-01-01T00:00:00Z, the value of
Math.round(Date.parse(01 Jan 2001 00:00:00 GMT) / 1000). -/
def epochOffset : Int := 978307200

/-- The ResetTotal read handler: the stored lastReset when it is not
nullish, otherwise initialTime minus the 2001 epoch offset. -/
def resetTotalGet (s : SesameState) : Int :=
  match s.ctx.lastReset with
  | some v => v
  | none => s.initialTime - epochOffset

/-- Persisted context as found on disk before the constructor runs; none is
an absent field. -/
structure RawContext where
  lockState : Option Int
  batteryLevel : Option Int
  batteryCritical : Option Bool
  timesOpened : Option Int
  lastReset : Option Int
  lastActivation : Option Int
deriving DecidableEq

/-- The constructor defaults: each context field is filled only when absent
(the ??= assignments), and when history is turned off the battery fields are
reset and the counter fields are discarded. -/
def initContext (raw : RawContext) (historyEnabled : Bool) : Context :=
  let c : Context :=
    { lockState := raw.lockState.getD LockCurrentState.SECURED
      batteryLevel := raw.batteryLevel.getD 100
      batteryCritical := raw.batteryCritical.getD false
      timesOpened := some (raw.timesOpened.getD 0)
      lastReset := some (raw.lastReset.getD 0)
      lastActivation := raw.lastActivation }
  if historyEnabled then c
  else { c with batteryLevel := 100, batteryCritical := false,
                timesOpened := none, lastReset := none }

/-- Accessory state right after construction; chars0 carries the framework
defaults of the characteristic caches, which the source never reads before
writing. -/
def initState (raw : RawContext) (historyEnabled : Bool) (initialTime : Int)
    (chars0 : Chars) : SesameState :=
  { ctx := initContext raw historyEnabled
    chars := chars0
    historyEnabled := historyEnabled
    initialTime := initialTime
    entries := [] }

/-- The operations that can touch the accessory state after construction:
a status sample (poll result or push), a dispatch, a heartbeat firing, a
ResetTotal write, and the shutdown listener. -/
inductive Op where
  | sample (st : CHSesame2MechStatus) (now : Int)
  | dispatch (value : Int) (env : DispatchEnv)
  | heartbeat (now : Int)
  | reset (v : Int)
  | shutdown
deriving DecidableEq

/-- One operation step. -/
def runOp (s : SesameState) : Op → SesameState × List Event
  | Op.sample st now => setLockStatus s st now
  | Op.dispatch v env => setLockTargetState s v env
  | Op.heartbeat now => updateHistory s now
  | Op.reset v => resetTotalSet s v
  | Op.shutdown => (s, shutdownHandler)

/-- Folding a list of operations over a state. -/
def runOps (s : SesameState) : List Op → SesameState
  | [] => s
  | op :: ops => runOps (runOp s op).1 ops

/-- The persisted lock state is one of the two states this program ever
stores. -/
def lockStateOK (s : SesameState) : Prop :=
  s.ctx.lockState = LockCurrentState.UNSECURED ∨ s.ctx.lockState = LockCurrentState.SECURED

/-! Frame lemmas: the contact sensor machinery never touches the lock state
or the battery fields of the persisted context. -/

theorem contactOnChange_ctx_frame (s : SesameState) (now oldV newV : Int) :
    (contactOnChange s now oldV newV).1.ctx.lockState = s.ctx.lockState ∧
    (contactOnChange s now oldV newV).1.ctx.batteryLevel = s.ctx.batteryLevel ∧
    (contactOnChange s now oldV newV).1.ctx.batteryCritical = s.ctx.batteryCritical := by
  unfold contactOnChange
  dsimp only
  split
  · exact ⟨rfl, rfl, rfl⟩
  · split
    · exact ⟨rfl, rfl, rfl⟩
    · exact ⟨rfl, rfl, rfl⟩

theorem updateContactSensorState_ctx_frame (s : SesameState) (now : Int) :
    (updateContactSensorState s now).1.ctx.lockState = s.ctx.lockState ∧
    (updateContactSensorState s now).1.ctx.batteryLevel = s.ctx.batteryLevel ∧
    (updateContactSensorState s now).1.ctx.batteryCritical = s.ctx.batteryCritical := by
  unfold updateContactSensorState updateContactChar
  dsimp only
  split
  · exact contactOnChange_ctx_frame _ _ _ _
  · exact ⟨rfl, rfl, rfl⟩

/-- On a valid sample the reconciler always leaves the stored lock state
equal to the derived lock state of the sample. -/
theorem setLockStatus_lockState_of_valid (s : SesameState) (st : CHSesame2MechStatus)
    (now : Int) (h : ¬ st.isInLockRange = st.isInUnlockRange) :
    (setLockStatus s st now).1.ctx.lockState = derivedLockState st := by
  unfold setLockStatus
  rw [if_neg h]
  dsimp only
  split
  · next heq => exact heq.symm
  · exact (updateContactSensorState_ctx_frame _ _).1

/-- A valid sample whose derived lock state equals the stored one is a
complete no-op. -/
theorem setLockStatus_noop_of_eq (s : SesameState) (st : CHSesame2MechStatus)
    (now : Int) (hv : ¬ st.isInLockRange = st.isInUnlockRange)
    (hd : derivedLockState st = s.ctx.lockState) :
    setLockStatus s st now = (s, []) := by
  unfold setLockStatus
  rw [if_neg hv]
  dsimp only
  rw [if_pos hd]

/-- A fixed assignment of characteristic caches used for concrete witnesses. -/
def baseChars : Chars :=
  { lockCurrent := 3
    lockTarget := 3
    battery := 100
    lowBattery := false
    contactSensor := 0
    timesOpened := some 0
    lastActivation := 0 }

/-- A concrete accessory state used for concrete witnesses: history enabled,
lock secured, full battery. -/
def baseState : SesameState :=
  { ctx :=
      { lockState := 1
        batteryLevel := 100
        batteryCritical := false
        timesOpened := some 0
        lastReset := some 0
        lastActivation := none }
    chars := baseChars
    historyEnabled := true
    initialTime := 1000
    entries := [] }

/-- Claim C1: applying a MechStatus sample with isInLockRange equal to
isInUnlockRange through setLockStatus is a complete no-op: the state is
returned unchanged and no notification or history event is issued. -/
theorem ambiguous_sample_noop (s : SesameState) (st : CHSesame2MechStatus) (now : Int)
    (h : st.isInLockRange = st.isInUnlockRange) :
    setLockStatus s st now = (s, []) := by
  unfold setLockStatus
  rw [if_pos h]

/-- A concrete ambiguous sample: both range flags true. -/
def ambiguousSample : CHSesame2MechStatus :=
  { isInLockRange := true
    isInUnlockRange := true
    batteryPercentage := 50
    isBatteryCritical := false }

/-- A concrete valid sample whose derived lock state is SECURED. -/
def securedSample : CHSesame2MechStatus :=
  { isInLockRange := true
    isInUnlockRange := false
    batteryPercentage := 40
    isBatteryCritical := false }

/-- Witness for C1 at a concrete state and a concrete ambiguous sample. -/
theorem ambiguous_sample_noop_witness :
    setLockStatus baseState ambiguousSample 12 = (baseState, []) :=
  ambiguous_sample_noop baseState ambiguousSample 12 rfl

/-- Claim C2: a valid sample whose derived lock state equals the stored one
produces no state change and no notification, and applying any sample twice
in a row makes the second application a no-op. -/
theorem duplicate_sample_noop (s : SesameState) (st : CHSesame2MechStatus)
    (now now2 : Int) (hv : ¬ st.isInLockRange = st.isInUnlockRange) :
    (derivedLockState st = s.ctx.lockState → setLockStatus s st now = (s, [])) ∧
    setLockStatus (setLockStatus s st now).1 st now2 = ((setLockStatus s st now).1, []) := by
  constructor
  · intro hd
    exact setLockStatus_noop_of_eq s st now hv hd
  · exact setLockStatus_noop_of_eq _ st now2 hv
      (setLockStatus_lockState_of_valid s st now hv).symm

/-- Witness for C2 at a concrete state and a concrete valid sample whose
derived lock state equals the stored one. -/
theorem duplicate_sample_noop_witness :
    (derivedLockState securedSample = baseState.ctx.lockState →
      setLockStatus baseState securedSample 5 = (baseState, [])) ∧
    setLockStatus (setLockStatus baseState securedSample 5).1 securedSample 6 =
      ((setLockStatus baseState securedSample 5).1, []) :=
  duplicate_sample_noop baseState securedSample 5 6 (by decide)

/-- A concrete dispatch environment in which postCmd rejects, on the polling
client. -/
def failEnv : DispatchEnv :=
  { client := ClientKind.candy
    postCmdFails := true
    poll := none
    now := 0 }

/-- Claim C3: when the target is valid and postCmd raises, the error is
handled inside setLockTargetState (the function returns normally, with the
events below as its complete output) and the LockCurrentState characteristic
is forced to JAMMED, whatever the prior state was. -/
theorem dispatch_failure_jammed (s : SesameState) (v : Int) (env : DispatchEnv)
    (cmd : Command) (hc : cmdFor v = some cmd) (hf : env.postCmdFails = true) :
    (setLockTargetState s v env).1.chars.lockCurrent = LockCurrentState.JAMMED ∧
    (setLockTargetState s v env).2 =
      [Event.charUpdate CharName.lockTargetState (CVal.num v), Event.postCmd cmd,
       Event.charUpdate CharName.lockCurrentState (CVal.num LockCurrentState.JAMMED)] := by
  unfold setLockTargetState
  rw [hc]
  unfold mutexBody
  rw [hf]
  exact ⟨rfl, rfl⟩

/-- Witness for C3 on a concrete state, the SECURED target and a failing
environment. -/
theorem dispatch_failure_jammed_witness :
    (setLockTargetState baseState 1 failEnv).1.chars.lockCurrent = LockCurrentState.JAMMED ∧
    (setLockTargetState baseState 1 failEnv).2 =
      [Event.charUpdate CharName.lockTargetState (CVal.num 1), Event.postCmd Command.lock,
       Event.charUpdate CharName.lockCurrentState (CVal.num LockCurrentState.JAMMED)] :=
  dispatch_failure_jammed baseState 1 failEnv Command.lock (by decide) rfl

/-- Claim C9: a failing dispatch leaves the whole state unchanged except for
the two characteristic caches: LockTargetState stays at the optimistic
requested value and LockCurrentState becomes JAMMED; the persisted context
and the history entries are untouched. -/
theorem dispatch_failure_frame (s : SesameState) (v : Int) (env : DispatchEnv)
    (cmd : Command) (hc : cmdFor v = some cmd) (hf : env.postCmdFails = true) :
    setLockTargetState s v env =
      ({ s with chars := { s.chars with lockTarget := v, lockCurrent := LockCurrentState.JAMMED } },
       [Event.charUpdate CharName.lockTargetState (CVal.num v), Event.postCmd cmd,
        Event.charUpdate CharName.lockCurrentState (CVal.num LockCurrentState.JAMMED)]) := by
  unfold setLockTargetState
  rw [hc]
  unfold mutexBody
  rw [hf]
  rfl

/-- Witness for C9 on a concrete state, the UNSECURED target and a failing
environment. -/
theorem dispatch_failure_frame_witness :
    setLockTargetState baseState 0 failEnv =
      ({ baseState with chars := { baseState.chars with lockTarget := 0, lockCurrent := LockCurrentState.JAMMED } },
       [Event.charUpdate CharName.lockTargetState (CVal.num 0), Event.postCmd Command.unlock,
        Event.charUpdate CharName.lockCurrentState (CVal.num LockCurrentState.JAMMED)]) :=
  dispatch_failure_frame baseState 0 failEnv Command.unlock (by decide) rfl

/-- Claim C5: when postCmd succeeds, a dispatch on the CandyClient sleeps
exactly 2500 milliseconds and then triggers updateToLatestStatus inside the
mutex body, while a dispatch on the CognitoClient issues no re-poll at
all. -/
theorem dispatch_success_repoll (s : SesameState) (v : Int) (env : DispatchEnv)
    (cmd : Command) (hc : cmdFor v = some cmd) (hf : env.postCmdFails = false) :
    (env.client = ClientKind.candy →
      setLockTargetState s v env =
        ((updateToLatestStatus (optimisticTarget s v) env.poll env.now).1,
         [Event.charUpdate CharName.lockTargetState (CVal.num v), Event.postCmd cmd,
          Event.sleepMs 2500, Event.updateToLatest]
          ++ (updateToLatestStatus (optimisticTarget s v) env.poll env.now).2)) ∧
    (env.client = ClientKind.cognito →
      setLockTargetState s v env =
        (optimisticTarget s v,
         [Event.charUpdate CharName.lockTargetState (CVal.num v), Event.postCmd cmd])) := by
  constructor
  · intro h
    unfold setLockTargetState
    rw [hc]
    unfold mutexBody
    rw [hf, h]
    rfl
  · intro h
    unfold setLockTargetState
    rw [hc]
    unfold mutexBody
    rw [hf, h]
    rfl

/-- A concrete dispatch environment in which postCmd succeeds on the polling
client, whose poll then reports an unlocked mechanism. -/
def candyOkEnv : DispatchEnv :=
  { client := ClientKind.candy
    postCmdFails := false
    poll := some { isInLockRange := false
                   isInUnlockRange := true
                   batteryPercentage := 70
                   isBatteryCritical := false }
    now := 99 }

/-- Witness for C5 on a concrete state, the UNSECURED target and a
successful polling-client environment. -/
theorem dispatch_success_repoll_witness :
    (candyOkEnv.client = ClientKind.candy →
      setLockTargetState baseState 0 candyOkEnv =
        ((updateToLatestStatus (optimisticTarget baseState 0) candyOkEnv.poll candyOkEnv.now).1,
         [Event.charUpdate CharName.lockTargetState (CVal.num 0), Event.postCmd Command.unlock,
          Event.sleepMs 2500, Event.updateToLatest]
          ++ (updateToLatestStatus (optimisticTarget baseState 0) candyOkEnv.poll candyOkEnv.now).2)) ∧
    (candyOkEnv.client = ClientKind.cognito →
      setLockTargetState baseState 0 candyOkEnv =
        (optimisticTarget baseState 0,
         [Event.charUpdate CharName.lockTargetState (CVal.num 0), Event.postCmd Command.unlock])) :=
  dispatch_success_repoll baseState 0 candyOkEnv Command.unlock (by decide) rfl

/-- A valid sample whose derived lock state equals the one stored in
baseState but whose battery fields differ from the stored ones. -/
def staleBatterySample : CHSesame2MechStatus :=
  { isInLockRange := true
    isInUnlockRange := false
    batteryPercentage := 40
    isBatteryCritical := true }

/-- Counterexample to claim C4: on a valid sample whose derived lock state
equals the stored one, setLockStatus returns before touching the battery
fields, so they are not refreshed. -/
theorem battery_refresh_cex :
    staleBatterySample.isInLockRange = true ∧
    staleBatterySample.isInUnlockRange = false ∧
    derivedLockState staleBatterySample = baseState.ctx.lockState ∧
    staleBatterySample.batteryPercentage = 40 ∧
    staleBatterySample.isBatteryCritical = true ∧
    (setLockStatus baseState staleBatterySample 0).1.ctx.batteryLevel = 100 ∧
    (setLockStatus baseState staleBatterySample 0).1.ctx.batteryCritical = false ∧
    ¬ (setLockStatus baseState staleBatterySample 0).1.ctx.batteryLevel =
        staleBatterySample.batteryPercentage ∧
    ¬ (setLockStatus baseState staleBatterySample 0).1.ctx.batteryCritical =
        staleBatterySample.isBatteryCritical := by
  decide

/-- Claim C4 as amended: the battery fields are refreshed from a valid
sample exactly when its derived lock state differs from the stored one; on
such samples the refresh is unconditional. -/
theorem battery_refresh_on_change (s : SesameState) (st : CHSesame2MechStatus)
    (now : Int) (hv : ¬ st.isInLockRange = st.isInUnlockRange)
    (hd : ¬ derivedLockState st = s.ctx.lockState) :
    (setLockStatus s st now).1.ctx.batteryLevel = st.batteryPercentage ∧
    (setLockStatus s st now).1.ctx.batteryCritical = st.isBatteryCritical := by
  unfold setLockStatus
  rw [if_neg hv]
  dsimp only
  rw [if_neg hd]
  exact ⟨(updateContactSensorState_ctx_frame _ _).2.1,
         (updateContactSensorState_ctx_frame _ _).2.2⟩

/-- A concrete valid sample whose derived lock state is UNSECURED, with
fresh battery data. -/
def unlockedSample : CHSesame2MechStatus :=
  { isInLockRange := false
    isInUnlockRange := true
    batteryPercentage := 55
    isBatteryCritical := true }

/-- Witness for the amended C4 at a concrete state and a concrete
state-changing sample. -/
theorem battery_refresh_on_change_witness :
    (setLockStatus baseState unlockedSample 3).1.ctx.batteryLevel =
      unlockedSample.batteryPercentage ∧
    (setLockStatus baseState unlockedSample 3).1.ctx.batteryCritical =
      unlockedSample.isBatteryCritical :=
  battery_refresh_on_change baseState unlockedSample 3 (by decide) (by decide)

/-- Counterexample to claim C6: the listener installed on the accessory
shutdown event only shuts the client down; it does not cancel or release the
scheduled heartbeat timer. -/
theorem heartbeat_shutdown_cex :
    shutdownHandler = [Event.clientShutdown] ∧
    ¬ Event.cancelTimer ∈ shutdownHandler := by
  decide

/-- Claim C6 as amended: each heartbeat firing appends exactly one history
entry whose contact state is derived from the current persisted lock state
(contact detected exactly when SECURED), leaves the context untouched,
reschedules itself after 10 minutes, and the shutdown listener only shuts
the client down, without cancelling the heartbeat timer. -/
theorem heartbeat_amended (s : SesameState) (now : Int) :
    (updateHistory s now).1 =
      { s with entries := s.entries ++ [{ time := now, status := contactStateOf s.ctx.lockState }] } ∧
    (updateHistory s now).2 =
      [Event.addEntry now (contactStateOf s.ctx.lockState),
       Event.scheduleTimer (10 * 60 * 1000)] ∧
    (contactStateOf s.ctx.lockState = ContactSensorState.CONTACT_DETECTED ↔
      s.ctx.lockState = LockCurrentState.SECURED) ∧
    shutdownHandler = [Event.clientShutdown] := by
  refine ⟨rfl, rfl, ?_, rfl⟩
  unfold contactStateOf
  split
  · next h => simp [h]
  · next h =>
    constructor
    · intro habs
      exact absurd habs (by decide)
    · intro habs
      exact absurd habs h

/-- The persisted context of a fresh accessory: every field absent. -/
def freshRaw : RawContext :=
  { lockState := none
    batteryLevel := none
    batteryCritical := none
    timesOpened := none
    lastReset := none
    lastActivation := none }

/-- A fresh accessory with history enabled, right after construction. -/
def freshState : SesameState :=
  initState freshRaw true 1600000000 baseChars

/-- Counterexample to claim C7: on a fresh accessory the constructor
defaults lastReset to 0, not to absent, so the ResetTotal read handler
returns 0 and not initialTime minus the 2001 epoch offset. -/
theorem lastReset_default_cex :
    freshState.ctx.lastReset = some 0 ∧
    ¬ freshState.ctx.lastReset = none ∧
    resetTotalGet freshState = 0 ∧
    freshState.initialTime - epochOffset = 621692800 ∧
    ¬ resetTotalGet freshState = freshState.initialTime - epochOffset := by
  decide

/-- A state whose persisted lastReset is nullish, as it can only be before
the constructor defaults run. -/
def noResetState : SesameState :=
  { freshState with ctx := { freshState.ctx with lastReset := none } }

/-- Claim C7 as amended: construction defaults lastReset to 0 when it is
absent, so the ResetTotal read handler of a never-reset fresh accessory
returns 0; the initialTime minus 978307200 fallback is returned only when
the stored lastReset is nullish. -/
theorem lastReset_default_amended (raw : RawContext) (t : Int) (chars0 : Chars)
    (s : SesameState) (h : raw.lastReset = none) (hs : s.ctx.lastReset = none) :
    (initState raw true t chars0).ctx.lastReset = some 0 ∧
    resetTotalGet (initState raw true t chars0) = 0 ∧
    resetTotalGet s = s.initialTime - epochOffset := by
  refine ⟨?_, ?_, ?_⟩
  · unfold initState initContext
    simp [h]
  · unfold resetTotalGet initState initContext
    simp [h]
  · unfold resetTotalGet
    rw [hs]

/-- Witness for the amended C7 at a fresh raw context and a concrete state
with nullish lastReset. -/
theorem lastReset_default_amended_witness :
    (initState freshRaw true 1700000000 baseChars).ctx.lastReset = some 0 ∧
    resetTotalGet (initState freshRaw true 1700000000 baseChars) = 0 ∧
    resetTotalGet noResetState = noResetState.initialTime - epochOffset :=
  lastReset_default_amended freshRaw 1700000000 baseChars noResetState rfl rfl

/-- Claim C8: the ResetTotal write handler zeroes timesOpened, stores the
reset marker, publishes the zeroed TimesOpened count as its only
notification, touches neither lastActivation nor the existing history
entries, and the next transition into the open state raises timesOpened to
exactly one. -/
theorem reset_counters_spec (s : SesameState) (T now : Int) (st : CHSesame2MechStatus)
    (hh : s.historyEnabled = true)
    (hA : s.ctx.lockState = LockCurrentState.SECURED)
    (hC : s.chars.contactSensor = ContactSensorState.CONTACT_DETECTED)
    (h1 : st.isInLockRange = false) (h2 : st.isInUnlockRange = true) :
    (resetTotalSet s T).1.ctx.timesOpened = some 0 ∧
    (resetTotalSet s T).1.ctx.lastReset = some T ∧
    (resetTotalSet s T).2 = [Event.charUpdate CharName.timesOpened (CVal.num 0)] ∧
    (resetTotalSet s T).1.ctx.lastActivation = s.ctx.lastActivation ∧
    (resetTotalSet s T).1.entries = s.entries ∧
    (setLockStatus (resetTotalSet s T).1 st now).1.ctx.timesOpened = some 1 := by
  simp [resetTotalSet, setLockStatus, derivedLockState, updateContactSensorState,
        updateContactChar, contactOnChange, contactStateOf, getLockState,
        getBatteryLevel, getStatusLowBattery, CVal.ofCounter,
        LockCurrentState.SECURED, LockCurrentState.UNSECURED,
        ContactSensorState.CONTACT_DETECTED, ContactSensorState.CONTACT_NOT_DETECTED,
        hh, hA, hC, h1, h2]

/-- Witness for C8 at a concrete secured state with history enabled and a
concrete opening sample. -/
theorem reset_counters_spec_witness :
    (resetTotalSet baseState 42).1.ctx.timesOpened = some 0 ∧
    (resetTotalSet baseState 42).1.ctx.lastReset = some 42 ∧
    (resetTotalSet baseState 42).2 = [Event.charUpdate CharName.timesOpened (CVal.num 0)] ∧
    (resetTotalSet baseState 42).1.ctx.lastActivation = baseState.ctx.lastActivation ∧
    (resetTotalSet baseState 42).1.entries = baseState.entries ∧
    (setLockStatus (resetTotalSet baseState 42).1 unlockedSample 7).1.ctx.timesOpened = some 1 :=
  reset_counters_spec baseState 42 7 unlockedSample rfl rfl rfl rfl rfl

/-! Preservation lemmas for the lock state invariant of claim C10. -/

theorem derivedLockState_ok (st : CHSesame2MechStatus) :
    derivedLockState st = LockCurrentState.UNSECURED ∨
    derivedLockState st = LockCurrentState.SECURED := by
  unfold derivedLockState
  split
  · exact Or.inr rfl
  · exact Or.inl rfl

theorem setLockStatus_preserves (s : SesameState) (st : CHSesame2MechStatus)
    (now : Int) (h : lockStateOK s) : lockStateOK (setLockStatus s st now).1 := by
  by_cases hv : st.isInLockRange = st.isInUnlockRange
  · unfold setLockStatus
    rw [if_pos hv]
    exact h
  · unfold lockStateOK
    rw [setLockStatus_lockState_of_valid s st now hv]
    exact derivedLockState_ok st

theorem updateToLatestStatus_preserves (s : SesameState)
    (poll : Option CHSesame2MechStatus) (now : Int) (h : lockStateOK s) :
    lockStateOK (updateToLatestStatus s poll now).1 := by
  cases poll with
  | none => exact h
  | some st => exact setLockStatus_preserves s st now h

theorem setLockTargetState_preserves (s : SesameState) (v : Int) (env : DispatchEnv)
    (h : lockStateOK s) : lockStateOK (setLockTargetState s v env).1 := by
  unfold setLockTargetState
  cases hcv : cmdFor v with
  | none => exact h
  | some cmd =>
    unfold mutexBody
    dsimp only
    by_cases hf : env.postCmdFails = true
    · rw [if_pos hf]
      exact h
    · rw [if_neg hf]
      by_cases hw : isWebAPIMode env.client = true
      · rw [if_pos hw]
        exact updateToLatestStatus_preserves (optimisticTarget s v) env.poll env.now h
      · rw [if_neg hw]
        exact h

theorem updateHistory_preserves (s : SesameState) (now : Int) (h : lockStateOK s) :
    lockStateOK (updateHistory s now).1 :=
  h

theorem resetTotalSet_preserves (s : SesameState) (v : Int) (h : lockStateOK s) :
    lockStateOK (resetTotalSet s v).1 := by
  unfold resetTotalSet
  dsimp only
  split
  · exact h
  · exact h

theorem runOp_preserves (s : SesameState) (op : Op) (h : lockStateOK s) :
    lockStateOK (runOp s op).1 := by
  cases op with
  | sample st now => exact setLockStatus_preserves s st now h
  | dispatch v env => exact setLockTargetState_preserves s v env h
  | heartbeat now => exact updateHistory_preserves s now h
  | reset v => exact resetTotalSet_preserves s v h
  | shutdown => exact h

theorem runOps_preserves (ops : List Op) :
    ∀ s : SesameState, lockStateOK s → lockStateOK (runOps s ops) := by
  induction ops with
  | nil => intro s h; exact h
  | cons op ops ih => intro s h; exact ih (runOp s op).1 (runOp_preserves s op h)

theorem initState_lockStateOK (raw : RawContext) (hist : Bool) (t : Int) (chars0 : Chars)
    (h : raw.lockState = none ∨ raw.lockState = some LockCurrentState.UNSECURED ∨
         raw.lockState = some LockCurrentState.SECURED) :
    lockStateOK (initState raw hist t chars0) := by
  unfold lockStateOK initState initContext
  cases hist <;>
    rcases h with h | h | h <;>
      simp [h, LockCurrentState.UNSECURED, LockCurrentState.SECURED]

/-- Claim C10: starting from any context this program could have persisted
(fresh, or with a lock state this program stored), after construction and
any sequence of operations the persisted lock state, hence the value served
by getLockState, is always UNSECURED or SECURED and never JAMMED or
UNKNOWN. -/
theorem lockState_invariant (raw : RawContext) (hist : Bool) (t : Int) (chars0 : Chars)
    (ops : List Op)
    (h : raw.lockState = none ∨ raw.lockState = some LockCurrentState.UNSECURED ∨
         raw.lockState = some LockCurrentState.SECURED) :
    (getLockState (runOps (initState raw hist t chars0) ops) = LockCurrentState.UNSECURED ∨
     getLockState (runOps (initState raw hist t chars0) ops) = LockCurrentState.SECURED) ∧
    ¬ getLockState (runOps (initState raw hist t chars0) ops) = LockCurrentState.JAMMED ∧
    ¬ getLockState (runOps (initState raw hist t chars0) ops) = LockCurrentState.UNKNOWN := by
  have hfin := runOps_preserves ops (initState raw hist t chars0)
    (initState_lockStateOK raw hist t chars0 h)
  unfold lockStateOK at hfin
  unfold getLockState
  rcases hfin with hk | hk
  · refine ⟨Or.inl hk, ?_, ?_⟩
    · rw [hk]; decide
    · rw [hk]; decide
  · refine ⟨Or.inr hk, ?_, ?_⟩
    · rw [hk]; decide
    · rw [hk]; decide

/-- A concrete operation sequence containing a failing dispatch, a sample, a
heartbeat, a reset and the shutdown listener. -/
def traceOps : List Op :=
  [Op.dispatch 1 failEnv, Op.sample unlockedSample 3, Op.heartbeat 9,
   Op.reset 5, Op.shutdown]

/-- Witness for C10 on a fresh accessory and a concrete operation trace that
includes the jam-on-failure path. -/
theorem lockState_invariant_witness :
    (getLockState (runOps (initState freshRaw true 0 baseChars) traceOps) = LockCurrentState.UNSECURED ∨
     getLockState (runOps (initState freshRaw true 0 baseChars) traceOps) = LockCurrentState.SECURED) ∧
    ¬ getLockState (runOps (initState freshRaw true 0 baseChars) traceOps) = LockCurrentState.JAMMED ∧
    ¬ getLockState (runOps (initState freshRaw true 0 baseChars) traceOps) = LockCurrentState.UNKNOWN :=
  lockState_invariant freshRaw true 0 baseChars traceOps (Or.inl rfl)

end OpenSesame
